import Mathlib

/-!
Verification of the Segway testbench orchestration script
(`segway/Scripting/run_all_testbenches.py`) against its design
specification.  The Python source is shallowly embedded: the external
command executor is a function from command strings to execution
results, filesystem existence is a boolean oracle on paths, and wall
clock readings are explicit parameters.  All embedded functions are
computable so that concrete runs can be evaluated by `decide`/`rfl`.
-/

namespace Segway

/-- Result of one external process invocation (`subprocess.run`):
exit code plus captured stdout and stderr. -/
structure ExecutionResult where
  returncode : Int
  stdout : String
  stderr : String
deriving DecidableEq, Repr

/-- The four testbench outcome states used by the script. -/
inductive Status where
  | COMPILE_FAILED
  | FAILED
  | PASSED
  | COMPLETED
deriving DecidableEq, Repr

/-- Three-way overall verdict of the summary (FAILURES DETECTED /
ALL TESTS PASSED / TESTS COMPLETED). -/
inductive Verdict where
  | PASS
  | FAIL
  | INCONCLUSIVE
deriving DecidableEq, Repr

/-- A test outcome dictionary.  The Python code builds plain dicts whose
key sets differ between the compile-failure path and the simulation
path, so the `module`, `output` and `error` keys are modelled as
`Option` fields (`none` = key absent from the dict). -/
structure TestOutcome where
  name : String
  module : Option String
  status : Status
  duration : Int
  output : Option String
  error : Option String
deriving DecidableEq, Repr

/-- One entry of a testbench set: module name plus source path. -/
structure TestbenchSpec where
  module : String
  path : String
deriving DecidableEq, Repr

/-- `WORK_LIB = "work"`. -/
def WORK_LIB : String := "work"

/-- `VSIM_FLAGS`. -/
def VSIM_FLAGS : String := "-c -voptargs=+acc -sv_seed random"

/-- The fixed dependency-ordered compile list `COMPILE_ORDER`. -/
def COMPILE_ORDER : List String := [
  "../task_pkg.sv",
  "../over_I_task_pkg.sv",
  "../UART_tx.sv",
  "../UART_rx.sv",
  "../PWM11.sv",
  "../SPI_mnrch.sv",
  "../SPI_ADC128S.sv",
  "../A2D_intf.sv",
  "../inert_intf.sv",
  "../rst_synch.sv",
  "../PID.sv",
  "../mtr_drv.sv",
  "../balance_cntrl.sv",
  "../steer_en_SM.sv",
  "../steer_en.sv",
  "../Auth_blk.sv",
  "../piezo_drv.sv",
  "../Segway.sv",
  "../inertial_integrator.sv",
  "../SegwayMath.sv",
  "../SegwayModel.sv",
  "../ADC128S_FC.sv"]

/-- The `TESTBENCH_SETS` table: named, ordered testbench sets. -/
def TESTBENCH_SETS : List (String × List TestbenchSpec) := [
  ("tests", [
    ⟨"Auth_segway_tb", "../tests/Auth_segway_tb.sv"⟩,
    ⟨"linear_speed_tb", "../tests/linear_speed_tb.sv"⟩,
    ⟨"over_I_tb", "../tests/over_I_tb.sv"⟩,
    ⟨"Segway_tb", "../tests/Segway_tb.sv"⟩,
    ⟨"steering_response_tb", "../tests/steering_response_tb.sv"⟩,
    ⟨"simultaneous_faults_tb", "../tests/simultaneous_faults_tb.sv"⟩]),
  ("physics_tests", [
    ⟨"Auth_segway_tb", "../physics_tests/Auth_segway_phys_tb.sv"⟩,
    ⟨"Auth_segway_tb", "../physics_tests/Auth_segway_tb.sv"⟩,
    ⟨"linear_speed_tb", "../physics_tests/linear_speed_phys_tb.sv"⟩,
    ⟨"over_I_tb", "../physics_tests/over_I_phys_tb.sv"⟩,
    ⟨"Segway_tb", "../physics_tests/Segway_phys_tb.sv"⟩,
    ⟨"steering_response_tb", "../physics_tests/steering_response_phys_tb.sv"⟩]),
  ("ansley", [
    ⟨"Auth_segway_tb", "../Ansley phys TB/Auth_segway_tb.sv"⟩,
    ⟨"linear_speed_tb", "../Ansley phys TB/linear_speed_phys_tb.sv"⟩,
    ⟨"over_I_tb", "../Ansley phys TB/over_I_phys_tb.sv"⟩,
    ⟨"Segway_tb", "../Ansley phys TB/Segway_phys_tb.sv"⟩,
    ⟨"steering_response_tb", "../Ansley phys TB/steering_response_phys_tb.sv"⟩])]

/-- The shell commands the script issues, in structured form.  The
actual command strings are recovered by `cmdString`. -/
inductive Cmd where
  | vlogVersion
  | vdel (lib : String)
  | vlib (lib : String)
  | vlogCompile (lib : String) (file : String)
  | vsimRun (flags : String) (lib : String) (module : String)
deriving DecidableEq, Repr

/-- The exact shell command string for each structured command,
matching the f-strings in the Python source. -/
def cmdString : Cmd → String
  | .vlogVersion => "vlog -version"
  | .vdel lib => "vdel -all -lib " ++ lib
  | .vlib lib => "vlib " ++ lib
  | .vlogCompile lib file => "vlog -sv -work " ++ lib ++ " " ++ file
  | .vsimRun flags lib m =>
      "vsim " ++ flags ++ " -do \"run -all; quit -f\" " ++ lib ++ "." ++ m

/-- Whether `pat` occurs as a contiguous sublist of the second list
(Python's `in` operator on strings, at character-list level). -/
def isSubListOf (pat : List Char) : List Char → Bool
  | [] => pat.isEmpty
  | c :: cs => pat.isPrefixOf (c :: cs) || isSubListOf pat cs

/-- Python's substring test `pat in s`. -/
def strContains (s pat : String) : Bool :=
  isSubListOf pat.toList s.toList

/-- Python's `str.lower()` (character-wise, ASCII range). -/
def strLower (s : String) : String :=
  String.mk (s.toList.map Char.toLower)

/-- Split a character list at every occurrence of `sep`. -/
def splitOnChar (sep : Char) : List Char → List (List Char)
  | [] => [[]]
  | c :: cs =>
    let r := splitOnChar sep cs
    if c = sep then [] :: r
    else (c :: r.headD []) :: r.tail

/-- `pathlib.Path(p).stem`: final path component without its last
suffix (a dot at position 0 or in final position does not start a
suffix). -/
def pathStem (p : String) : String :=
  let cs := (splitOnChar '/' p.toList).getLastD []
  let dots := (List.range cs.length).filter (fun i => cs.getD i ' ' == '.')
  match dots.getLast? with
  | some i =>
      if 0 < i && i + 1 < cs.length then String.mk (cs.take i)
      else String.mk cs
  | none => String.mk cs

/-- `TestRunner.run_command`: run a shell command through the external
executor; on exit code 0 return `(True, stdout)`, otherwise
`(False, stderr)`. -/
def run_command (exec : String → ExecutionResult) (cmd : String) :
    Bool × String :=
  let r := exec cmd
  if r.returncode = 0 then (true, r.stdout) else (false, r.stderr)

/-- Run a structured command through the executor. -/
def runCmd (exec : String → ExecutionResult) (c : Cmd) : Bool × String :=
  run_command exec (cmdString c)

/-- The output-classification heuristic of `TestRunner.run_testbench`
(lines 277-289): on the lowercased captured output, "error" without
"0 errors" means FAILED; else a pass marker means PASSED; else the
exit status decides COMPLETED vs FAILED; an empty output is classified
from the exit status alone. -/
def classify (output : String) (success : Bool) : Status :=
  if output ≠ "" then
    let ol := strLower output
    if strContains ol "error" && !strContains ol "0 errors" then
      .FAILED
    else if strContains ol "yahoo" || strContains ol "test passed" ||
        strContains ol "success" then
      .PASSED
    else if success then .COMPLETED
    else .FAILED
  else
    if success then .COMPLETED else .FAILED

/-- The classification rules as the specification words them (§4.3:
four numbered precedence rules on the case-insensitively lowered
output, plus the empty-output rule).  Stated independently of
`classify` so that agreement between code and spec is a theorem. -/
def classifySpec (output : String) (success : Bool) : Status :=
  if output = "" then
    if success then .COMPLETED else .FAILED
  else
    let ol := strLower output
    if strContains ol "error" && !strContains ol "0 errors" then
      .FAILED
    else if strContains ol "yahoo" || strContains ol "test passed" ||
        strContains ol "success" then
      .PASSED
    else if success then .COMPLETED
    else .FAILED

/-- A single testbench run: the outcome dictionary returned by
`TestRunner.run_testbench` plus the trace of commands it executed. -/
structure TBRun where
  outcome : TestOutcome
  commands : List Cmd
deriving DecidableEq, Repr

/-- `TestRunner.run_testbench` (lines 227-304): compile the testbench
file; on compile failure return a COMPILE_FAILED outcome at once
(dictionary without `module`/`output` keys); otherwise invoke the
simulator and classify its captured output.  `tStart`/`tEnd` are the
two wall-clock readings taken by the function. -/
def run_testbench (exec : String → ExecutionResult)
    (tb_module tb_path : String) (display_name : Option String)
    (tStart tEnd : Int) : TBRun :=
  let dn := display_name.getD (pathStem tb_path)
  let compile := runCmd exec (.vlogCompile WORK_LIB tb_path)
  if compile.1 = false then
    { outcome := { name := dn, module := none, status := .COMPILE_FAILED,
                   duration := tEnd - tStart, output := none,
                   error := some compile.2 },
      commands := [.vlogCompile WORK_LIB tb_path] }
  else
    let sim := runCmd exec (.vsimRun VSIM_FLAGS WORK_LIB tb_module)
    { outcome := { name := dn, module := some tb_module,
                   status := classify sim.2 sim.1,
                   duration := tEnd - tStart, output := some sim.2,
                   error := none },
      commands := [.vlogCompile WORK_LIB tb_path,
                   .vsimRun VSIM_FLAGS WORK_LIB tb_module] }

/-- Accumulated state of `TestRunner.compile_design`'s loop: the
compiled-file count, the failed-file list, the files actually handed
to the compiler (in order), and the missing files warned about. -/
structure CompileResult where
  count : Nat
  failed : List String
  attempted : List String
  warnings : List String
deriving DecidableEq, Repr

/-- The loop of `TestRunner.compile_design` (lines 199-218): walk the
file list in order; a missing file is warned about and skipped; an
existing file is compiled, bumping the count on success and extending
`failed` on failure; the loop never exits early. -/
def compileFiles (exec : String → ExecutionResult)
    (fexists : String → Bool) : List String → CompileResult
  | [] => ⟨0, [], [], []⟩
  | f :: rest =>
    if fexists f then
      let r := runCmd exec (.vlogCompile WORK_LIB f)
      let res := compileFiles exec fexists rest
      if r.1 then ⟨res.count + 1, res.failed, f :: res.attempted, res.warnings⟩
      else ⟨res.count, f :: res.failed, f :: res.attempted, res.warnings⟩
    else
      let res := compileFiles exec fexists rest
      ⟨res.count, res.failed, res.attempted, f :: res.warnings⟩

/-- The return value of `compile_design` generalised over the file
list: `True` iff no attempted file failed (lines 220-225). -/
def compileDesignFiles (exec : String → ExecutionResult)
    (fexists : String → Bool) (files : List String) : Bool :=
  (compileFiles exec fexists files).failed.isEmpty

/-- `TestRunner.compile_design`: the pipeline over the fixed
`COMPILE_ORDER` list. -/
def compile_design (exec : String → ExecutionResult)
    (fexists : String → Bool) : Bool :=
  compileDesignFiles exec fexists COMPILE_ORDER

/-- `TestRunner.check_modelsim`: probe the toolchain with
`vlog -version`. -/
def check_modelsim (exec : String → ExecutionResult) : Bool :=
  (runCmd exec .vlogVersion).1

/-- `TestRunner.create_work_library` (lines 171-188): delete the
library if present (result ignored), then create it; returns the
creation result plus the commands issued. -/
def create_work_library (exec : String → ExecutionResult)
    (fexists : String → Bool) : Bool × List Cmd :=
  let pre : List Cmd := if fexists WORK_LIB then [.vdel WORK_LIB] else []
  ((runCmd exec (.vlib WORK_LIB)).1, pre ++ [.vlib WORK_LIB])

/-- The loop of `TestRunner.run_all_testbenches`: run each testbench
of the set in order, appending its outcome; `clock` supplies the two
wall-clock readings of the testbench at each loop index. -/
def runTBList (exec : String → ExecutionResult)
    (clock : Nat → Int × Int) : Nat → List TestbenchSpec → List TestOutcome
  | _, [] => []
  | i, tb :: rest =>
      (run_testbench exec tb.module tb.path (some (pathStem tb.path))
        (clock i).1 (clock i).2).outcome :: runTBList exec clock (i + 1) rest

/-- `TestRunner.run_all_testbenches` (lines 306-320): an unknown set
name appends nothing to the result list; a known set contributes one
outcome per testbench, in declared order. -/
def run_all_testbenches (exec : String → ExecutionResult)
    (clock : Nat → Int × Int) (test_set : String) : List TestOutcome :=
  match TESTBENCH_SETS.lookup test_set with
  | none => []
  | some tbs => runTBList exec clock 0 tbs

/-- Number of results carrying a given status
(`sum(1 for r in self.results if r["status"] == ...)`). -/
def countStatus (rs : List TestOutcome) (s : Status) : Nat :=
  rs.countP (fun r => decide (r.status = s))

/-- What `TestRunner.print_summary` computes (lines 322-374): the four
per-status counts, the total duration, the three-way overall verdict,
and the boolean return value. -/
structure Summary where
  passed : Nat
  failed : Nat
  compile_failed : Nat
  completed : Nat
  total : Nat
  totalDuration : Int
  verdict : Verdict
  success : Bool
deriving DecidableEq, Repr

/-- `TestRunner.print_summary`: FAIL (returning `False`) when any
FAILED or COMPILE_FAILED result exists; else PASS when any PASSED
exists; else INCONCLUSIVE ("TESTS COMPLETED"), the latter two
returning `True`. -/
def print_summary (rs : List TestOutcome) : Summary :=
  let passed := countStatus rs .PASSED
  let failed := countStatus rs .FAILED
  let compile_failed := countStatus rs .COMPILE_FAILED
  let completed := countStatus rs .COMPLETED
  let total := rs.length
  let totalDuration := (rs.map (fun r => r.duration)).sum
  if 0 < compile_failed ∨ 0 < failed then
    ⟨passed, failed, compile_failed, completed, total, totalDuration,
      .FAIL, false⟩
  else if 0 < passed then
    ⟨passed, failed, compile_failed, completed, total, totalDuration,
      .PASS, true⟩
  else
    ⟨passed, failed, compile_failed, completed, total, totalDuration,
      .INCONCLUSIVE, true⟩

/-- Result of one `TestRunner.run` invocation: its boolean return
value, the accumulated result list, and the library-setup / design
compilation commands it issued. -/
structure RunResult where
  success : Bool
  results : List TestOutcome
  setupCommands : List Cmd
deriving DecidableEq, Repr

/-- `TestRunner.run` (lines 391-427): toolchain probe, then (unless
`skip_compile`) library creation and design compilation — aborting
with an empty result list if either fails — then the testbench loop
and the summary. -/
def run (exec : String → ExecutionResult) (fexists : String → Bool)
    (clock : Nat → Int × Int) (skip_compile : Bool) (test_set : String) :
    RunResult :=
  if check_modelsim exec = false then ⟨false, [], []⟩
  else if skip_compile = false then
    let lib := create_work_library exec fexists
    if lib.1 = false then ⟨false, [], lib.2⟩
    else
      let comp := compileFiles exec fexists COMPILE_ORDER
      let compCmds := comp.attempted.map (fun f => Cmd.vlogCompile WORK_LIB f)
      if comp.failed.isEmpty = false then ⟨false, [], lib.2 ++ compCmds⟩
      else
        let results := run_all_testbenches exec clock test_set
        ⟨(print_summary results).success, results, lib.2 ++ compCmds⟩
  else
    let results := run_all_testbenches exec clock test_set
    ⟨(print_summary results).success, results, []⟩

/-- `list(TESTBENCH_SETS.keys())`. -/
def setNames : List String := TESTBENCH_SETS.map (fun p => p.1)

/-- The `"all"` branch of `main` (lines 520-535): run every named set
in declared order with a fresh runner, skipping compilation for every
set but the first (or for all sets when `--skip-compile` was given),
and aggregate overall success. -/
def run_all_mode (exec : String → ExecutionResult)
    (fexists : String → Bool) (clock : Nat → Int × Int)
    (skipArg : Bool) : Bool × List (String × RunResult) :=
  let firstName := setNames.headD ""
  let runs := setNames.map (fun n =>
    (n, run exec fexists clock (skipArg || !(n == firstName)) n))
  (runs.all (fun p => p.2.success), runs)

/-- `sys.exit(0 if overall_success else 1)` for the `"all"` branch. -/
def run_all_mode_exit (exec : String → ExecutionResult)
    (fexists : String → Bool) (clock : Nat → Int × Int)
    (skipArg : Bool) : Nat :=
  if (run_all_mode exec fexists clock skipArg).1 then 0 else 1

/-- `sys.exit(0 if success else 1)` for a single named set. -/
def run_single_exit (exec : String → ExecutionResult)
    (fexists : String → Bool) (clock : Nat → Int × Int)
    (skipArg : Bool) (name : String) : Nat :=
  if (run exec fexists clock skipArg name).success then 0 else 1

/-- Executor on which every command fails with a fixed stderr text
(used to exercise the compile-failure path of `run_testbench`). -/
def execAllFail : String → ExecutionResult :=
  fun _ => ⟨1, "", "syntax error"⟩

/-- Executor used to refute C3's field claim: this one makes the
testbench compile step fail. -/
def execCompileError : String → ExecutionResult :=
  fun _ => ⟨2, "", "bad module"⟩

/-- Executor on which every command succeeds with a passing output
(used to exercise the simulation path of `run_testbench`). -/
def execAllPass : String → ExecutionResult :=
  fun _ => ⟨0, "YAHOO!! all tests passed", ""⟩

/-- A minimal outcome record carrying a given status (used for the
Reporter examples). -/
def mkOutcome (s : Status) : TestOutcome :=
  ⟨"tb", none, s, 0, none, none⟩

/-- Executor that fails exactly on the compile command for `b.sv`
(used for the Compile Pipeline witnesses). -/
def execFailOnB : String → ExecutionResult :=
  fun c =>
    if c = cmdString (.vlogCompile WORK_LIB "b.sv") then ⟨2, "", "bad file"⟩
    else ⟨0, "", ""⟩

/-- Executor on which every command exits 0 with empty output (a
toolchain where everything runs and nothing prints). -/
def execEmptyOk : String → ExecutionResult :=
  fun _ => ⟨0, "", ""⟩

/-- Executor whose `vlib` invocation fails and everything else
succeeds. -/
def execNoVlib : String → ExecutionResult :=
  fun c =>
    if c = cmdString (.vlib WORK_LIB) then ⟨1, "", "cannot create library"⟩
    else ⟨0, "", ""⟩

/-- `classify` never yields COMPILE_FAILED: that status only arises
from the compile step, never from output classification. -/
lemma classify_ne_compile_failed (o : String) (s : Bool) :
    classify o s ≠ Status.COMPILE_FAILED := by
  unfold classify
  split_ifs <;> simp <;> split_ifs <;> simp

end Segway

namespace Segway

/-- C1: the Testbench Runner's classification of captured output and
exit status follows the spec's precedence (on the lowered output:
"error" without "0 errors" → FAILED; else a pass marker → PASSED;
else exit status decides COMPLETED/FAILED; empty output classified
from exit status alone), and in particular "ERROR: 2 errors"
classifies as FAILED regardless of exit status. -/
theorem classification_follows_spec_precedence :
    (∀ (output : String) (success : Bool),
      classify output success = classifySpec output success) ∧
    (∀ success : Bool, classify "ERROR: 2 errors" success = Status.FAILED) := by
  refine ⟨fun output success => ?_, fun success => ?_⟩
  · by_cases h : output = "" <;> simp [classify, classifySpec, h]
  · cases success <;> decide

/-- C2: when the testbench's compile step fails, `run_testbench`
returns at once with status COMPILE_FAILED, the captured compile
stderr as the error and the elapsed duration, having executed only the
compile command — the simulation command is never executed. -/
theorem compile_failure_short_circuits (exec : String → ExecutionResult)
    (m p : String) (dn : Option String) (t0 t1 : Int)
    (h : (exec (cmdString (Cmd.vlogCompile WORK_LIB p))).returncode ≠ 0) :
    run_testbench exec m p dn t0 t1 =
      { outcome := { name := dn.getD (pathStem p), module := none,
                     status := .COMPILE_FAILED, duration := t1 - t0,
                     output := none,
                     error := some (exec (cmdString
                       (Cmd.vlogCompile WORK_LIB p))).stderr },
        commands := [Cmd.vlogCompile WORK_LIB p] } ∧
    Cmd.vsimRun VSIM_FLAGS WORK_LIB m ∉
      (run_testbench exec m p dn t0 t1).commands := by
  constructor <;> simp [run_testbench, runCmd, run_command, h]

/-- Concrete instance of C2: a failing compile on a real testbench
path yields the COMPILE_FAILED outcome with no simulation command. -/
theorem compile_failure_short_circuits_witness :
    run_testbench execAllFail "Segway_tb" "../tests/Segway_tb.sv" none 0 4 =
      { outcome := { name := "Segway_tb", module := none,
                     status := .COMPILE_FAILED, duration := 4,
                     output := none, error := some "syntax error" },
        commands := [Cmd.vlogCompile WORK_LIB "../tests/Segway_tb.sv"] } ∧
    Cmd.vsimRun VSIM_FLAGS WORK_LIB "Segway_tb" ∉
      (run_testbench execAllFail "Segway_tb" "../tests/Segway_tb.sv"
        none 0 4).commands := by
  have h := compile_failure_short_circuits execAllFail "Segway_tb"
    "../tests/Segway_tb.sv" none 0 4 (by decide)
  exact ⟨by rw [h.1]; decide, h.2⟩

/-- C3 counterexample: a COMPILE_FAILED outcome omits the `module` and
`output` keys, so not every outcome contains all fields of the
TestOutcome data model. -/
theorem compile_failed_outcome_missing_fields :
    ((run_testbench execCompileError "Segway_tb" "../tests/Segway_tb.sv"
        none 0 4).outcome.status = Status.COMPILE_FAILED) ∧
    ((run_testbench execCompileError "Segway_tb" "../tests/Segway_tb.sv"
        none 0 4).outcome.module = none) ∧
    ((run_testbench execCompileError "Segway_tb" "../tests/Segway_tb.sv"
        none 0 4).outcome.output = none) := by
  decide

/-- C3 amended: every outcome carries name, status and duration; an
outcome with status other than COMPILE_FAILED additionally carries the
module and the raw captured simulation output (and no error), while a
COMPILE_FAILED outcome carries the compile error text but omits module
and raw output. -/
theorem outcome_field_presence (exec : String → ExecutionResult)
    (m p : String) (dn : Option String) (t0 t1 : Int) :
    ((run_testbench exec m p dn t0 t1).outcome.name = dn.getD (pathStem p)) ∧
    ((run_testbench exec m p dn t0 t1).outcome.duration = t1 - t0) ∧
    ((run_testbench exec m p dn t0 t1).outcome.status = .COMPILE_FAILED →
      (run_testbench exec m p dn t0 t1).outcome.module = none ∧
      (run_testbench exec m p dn t0 t1).outcome.output = none ∧
      (run_testbench exec m p dn t0 t1).outcome.error =
        some (runCmd exec (Cmd.vlogCompile WORK_LIB p)).2) ∧
    ((run_testbench exec m p dn t0 t1).outcome.status ≠ .COMPILE_FAILED →
      (run_testbench exec m p dn t0 t1).outcome.module = some m ∧
      (run_testbench exec m p dn t0 t1).outcome.error = none ∧
      (run_testbench exec m p dn t0 t1).outcome.output =
        some (runCmd exec (Cmd.vsimRun VSIM_FLAGS WORK_LIB m)).2) := by
  by_cases hc : (runCmd exec (Cmd.vlogCompile WORK_LIB p)).1 = false
  · simp [run_testbench, hc]
  · simp only [run_testbench, hc, if_false]
    refine ⟨rfl, rfl, fun habs => ?_, fun _ => ⟨rfl, rfl, rfl⟩⟩
    exact absurd habs (classify_ne_compile_failed _ _)

/-- Concrete instance of the amended C3: on a successful run the
outcome carries module and raw output and no error. -/
theorem outcome_field_presence_witness :
    (run_testbench execAllPass "Segway_tb" "../tests/Segway_tb.sv"
        none 0 4).outcome.module = some "Segway_tb" ∧
    (run_testbench execAllPass "Segway_tb" "../tests/Segway_tb.sv"
        none 0 4).outcome.error = none ∧
    (run_testbench execAllPass "Segway_tb" "../tests/Segway_tb.sv"
        none 0 4).outcome.output = some "YAHOO!! all tests passed" := by
  have h := (outcome_field_presence execAllPass "Segway_tb"
    "../tests/Segway_tb.sv" none 0 4).2.2.2 (by decide)
  exact ⟨h.1, h.2.1, h.2.2⟩

/-- A status count is positive exactly when some result carries the
status. -/
lemma countStatus_pos (rs : List TestOutcome) (s : Status) :
    0 < countStatus rs s ↔ ∃ r ∈ rs, r.status = s := by
  simp [countStatus, List.countP_pos_iff]

/-- C4: the Reporter's overall verdict is FAIL exactly when some
result is COMPILE_FAILED or FAILED; otherwise PASS exactly when some
result is PASSED; otherwise INCONCLUSIVE — and the three spec examples
hold. -/
theorem summary_verdict_rule :
    (∀ rs : List TestOutcome,
      ((print_summary rs).verdict = .FAIL ↔
        ∃ r ∈ rs, r.status = .COMPILE_FAILED ∨ r.status = .FAILED) ∧
      ((print_summary rs).verdict = .PASS ↔
        (¬ ∃ r ∈ rs, r.status = .COMPILE_FAILED ∨ r.status = .FAILED) ∧
        ∃ r ∈ rs, r.status = .PASSED) ∧
      ((print_summary rs).verdict = .INCONCLUSIVE ↔
        (¬ ∃ r ∈ rs, r.status = .COMPILE_FAILED ∨ r.status = .FAILED) ∧
        ¬ ∃ r ∈ rs, r.status = .PASSED)) ∧
    (print_summary [mkOutcome .PASSED, mkOutcome .COMPLETED]).verdict = .PASS ∧
    (print_summary [mkOutcome .COMPLETED, mkOutcome .COMPLETED]).verdict =
      .INCONCLUSIVE ∧
    (print_summary [mkOutcome .PASSED, mkOutcome .FAILED]).verdict = .FAIL := by
  refine ⟨fun rs => ?_, by decide, by decide, by decide⟩
  have hsplit : (0 < countStatus rs .COMPILE_FAILED ∨
      0 < countStatus rs .FAILED) ↔
      ∃ r ∈ rs, r.status = .COMPILE_FAILED ∨ r.status = .FAILED := by
    rw [countStatus_pos, countStatus_pos]
    constructor
    · rintro (⟨r, hr, h⟩ | ⟨r, hr, h⟩)
      · exact ⟨r, hr, Or.inl h⟩
      · exact ⟨r, hr, Or.inr h⟩
    · rintro ⟨r, hr, h | h⟩
      · exact Or.inl ⟨r, hr, h⟩
      · exact Or.inr ⟨r, hr, h⟩
  by_cases hf : 0 < countStatus rs .COMPILE_FAILED ∨ 0 < countStatus rs .FAILED
  · have hv : (print_summary rs).verdict = .FAIL := by simp [print_summary, hf]
    rw [hv]
    exact ⟨iff_of_true rfl (hsplit.mp hf),
      iff_of_false (by decide) (fun h => h.1 (hsplit.mp hf)),
      iff_of_false (by decide) (fun h => h.1 (hsplit.mp hf))⟩
  · have hnf : ¬ ∃ r ∈ rs, r.status = .COMPILE_FAILED ∨ r.status = .FAILED :=
      fun hx => hf (hsplit.mpr hx)
    by_cases hp : 0 < countStatus rs .PASSED
    · have hv : (print_summary rs).verdict = .PASS := by
        simp [print_summary, hf, hp]
      rw [hv]
      exact ⟨iff_of_false (by decide) (fun hx => hnf hx),
        iff_of_true rfl ⟨hnf, (countStatus_pos rs .PASSED).mp hp⟩,
        iff_of_false (by decide)
          (fun h => h.2 ((countStatus_pos rs .PASSED).mp hp))⟩
    · have hnp : ¬ ∃ r ∈ rs, r.status = .PASSED :=
        fun hx => hp ((countStatus_pos rs .PASSED).mpr hx)
      have hv : (print_summary rs).verdict = .INCONCLUSIVE := by
        simp [print_summary, hf, hp]
      rw [hv]
      exact ⟨iff_of_false (by decide) (fun hx => hnf hx),
        iff_of_false (by decide) (fun h => hnp h.2),
        iff_of_true rfl ⟨hnf, hnp⟩⟩

/-- Closed form of the compile loop: counts, failures, attempts and
warnings are filters of the input list. -/
lemma compileFiles_eq (exec : String → ExecutionResult)
    (fexists : String → Bool) (files : List String) :
    compileFiles exec fexists files =
      ⟨(files.filter (fun f => fexists f &&
          (runCmd exec (.vlogCompile WORK_LIB f)).1)).length,
       files.filter (fun f => fexists f &&
          !(runCmd exec (.vlogCompile WORK_LIB f)).1),
       files.filter (fun f => fexists f),
       files.filter (fun f => !fexists f)⟩ := by
  induction files with
  | nil => rfl
  | cons f rest ih =>
      by_cases hf : fexists f <;>
        by_cases hr : (runCmd exec (.vlogCompile WORK_LIB f)).1 <;>
        simp [compileFiles, hf, hr, ih, List.filter_cons]

/-- C5: for every ordered file list, the Compile Pipeline hands every
present file to the compiler in list order (never stopping at a
failing file), collects exactly the failing files, and reports global
failure exactly when the failed list is non-empty after the whole list
has been walked; when every file is present, every file of the list is
attempted. -/
theorem compile_pipeline_exhaustive (exec : String → ExecutionResult)
    (fexists : String → Bool) (files : List String) :
    (compileFiles exec fexists files).attempted =
      files.filter (fun f => fexists f) ∧
    (compileFiles exec fexists files).failed =
      files.filter (fun f => fexists f &&
        !(runCmd exec (.vlogCompile WORK_LIB f)).1) ∧
    (compileDesignFiles exec fexists files = true ↔
      (compileFiles exec fexists files).failed = []) ∧
    ((∀ f ∈ files, fexists f = true) →
      (compileFiles exec fexists files).attempted = files) := by
  refine ⟨?_, ?_, ?_, ?_⟩
  · rw [compileFiles_eq]
  · rw [compileFiles_eq]
  · rw [compileDesignFiles, List.isEmpty_iff]
  · intro h
    rw [compileFiles_eq]
    exact List.filter_eq_self.mpr h

/-- Concrete instance of C5: a failure in the middle of the list does
not stop later files from being attempted, and makes the pipeline
report failure. -/
theorem compile_pipeline_exhaustive_witness :
    (compileFiles execFailOnB (fun _ => true)
      ["a.sv", "b.sv", "c.sv"]).attempted = ["a.sv", "b.sv", "c.sv"] ∧
    (compileFiles execFailOnB (fun _ => true)
      ["a.sv", "b.sv", "c.sv"]).failed = ["b.sv"] ∧
    compileDesignFiles execFailOnB (fun _ => true)
      ["a.sv", "b.sv", "c.sv"] = false := by
  have h := compile_pipeline_exhaustive execFailOnB (fun _ => true)
    ["a.sv", "b.sv", "c.sv"]
  exact ⟨h.2.2.2 (fun f _ => rfl), by decide, by decide⟩

/-- C6: a file that does not exist on disk is skipped: the run behaves
exactly as if the file were absent from the list (it is never handed
to the compiler, never enters the failed list, is not counted, and
does not change the pipeline's reported result), and a warning is
recorded for it. -/
theorem missing_file_skipped (exec : String → ExecutionResult)
    (fexists : String → Bool) (l1 l2 : List String) (f : String)
    (h : fexists f = false) :
    (compileFiles exec fexists (l1 ++ f :: l2)).attempted =
      (compileFiles exec fexists (l1 ++ l2)).attempted ∧
    (compileFiles exec fexists (l1 ++ f :: l2)).failed =
      (compileFiles exec fexists (l1 ++ l2)).failed ∧
    (compileFiles exec fexists (l1 ++ f :: l2)).count =
      (compileFiles exec fexists (l1 ++ l2)).count ∧
    f ∈ (compileFiles exec fexists (l1 ++ f :: l2)).warnings ∧
    compileDesignFiles exec fexists (l1 ++ f :: l2) =
      compileDesignFiles exec fexists (l1 ++ l2) := by
  refine ⟨?_, ?_, ?_, ?_, ?_⟩
  · rw [compileFiles_eq, compileFiles_eq]
    simp [List.filter_append, List.filter_cons, h]
  · rw [compileFiles_eq, compileFiles_eq]
    simp [List.filter_append, List.filter_cons, h]
  · rw [compileFiles_eq, compileFiles_eq]
    simp [List.filter_append, List.filter_cons, h]
  · rw [compileFiles_eq]
    simp [List.mem_filter, h]
  · rw [compileDesignFiles, compileDesignFiles,
      compileFiles_eq, compileFiles_eq]
    simp [List.filter_append, List.filter_cons, h]

/-- Concrete instance of C6: a nonexistent file in the middle of the
list changes nothing except a recorded warning. -/
theorem missing_file_skipped_witness :
    (compileFiles execFailOnB (fun s => !(s == "ghost.sv"))
      (["a.sv"] ++ "ghost.sv" :: ["c.sv"])).attempted =
      (compileFiles execFailOnB (fun s => !(s == "ghost.sv"))
        (["a.sv"] ++ ["c.sv"])).attempted ∧
    "ghost.sv" ∈ (compileFiles execFailOnB (fun s => !(s == "ghost.sv"))
      (["a.sv"] ++ "ghost.sv" :: ["c.sv"])).warnings ∧
    compileDesignFiles execFailOnB (fun s => !(s == "ghost.sv"))
      (["a.sv"] ++ "ghost.sv" :: ["c.sv"]) = true := by
  have h := missing_file_skipped execFailOnB (fun s => !(s == "ghost.sv"))
    ["a.sv"] ["c.sv"] "ghost.sv" (by decide)
  exact ⟨h.1, h.2.2.2.1, by decide⟩

/-- The testbench loop yields one outcome per entry. -/
lemma runTBList_length (exec : String → ExecutionResult)
    (clock : Nat → Int × Int) :
    ∀ (n : Nat) (tbs : List TestbenchSpec),
      (runTBList exec clock n tbs).length = tbs.length
  | _, [] => rfl
  | n, _ :: rest => by
      simp [runTBList, runTBList_length exec clock (n + 1) rest]

/-- The `i`-th outcome of the testbench loop started at index `n` is
the run of the `i`-th entry with the clock readings at `n + i`. -/
lemma runTBList_getElem (exec : String → ExecutionResult)
    (clock : Nat → Int × Int) (tbs : List TestbenchSpec) :
    ∀ n i : Nat,
      (runTBList exec clock n tbs)[i]? = tbs[i]?.map (fun tb =>
        (run_testbench exec tb.module tb.path (some (pathStem tb.path))
          (clock (n + i)).1 (clock (n + i)).2).outcome) := by
  induction tbs with
  | nil => intro n i; simp [runTBList]
  | cons tb rest ih =>
      intro n i
      cases i with
      | zero => simp [runTBList]
      | succ j =>
          simp only [runTBList, List.getElem?_cons_succ]
          rw [ih (n + 1) j]
          have hnj : n + 1 + j = n + (j + 1) := by omega
          rw [hnj]

/-- C7: for a run without skip-compile, if library creation fails or
the Compile Pipeline reports any failed file, the whole set is
aborted: the run returns failure and its result list is empty. -/
theorem coordinator_aborts_on_setup_failure
    (exec : String → ExecutionResult) (fexists : String → Bool)
    (clock : Nat → Int × Int) (name : String)
    (h : (create_work_library exec fexists).1 = false ∨
         (compileFiles exec fexists COMPILE_ORDER).failed ≠ []) :
    (run exec fexists clock false name).success = false ∧
    (run exec fexists clock false name).results = [] := by
  unfold run
  by_cases hm : check_modelsim exec = false
  · simp [hm]
  · by_cases hl : (create_work_library exec fexists).1 = false
    · simp [hm, hl]
    · have hc : (compileFiles exec fexists COMPILE_ORDER).failed ≠ [] :=
        h.resolve_left hl
      have hce : (compileFiles exec fexists COMPILE_ORDER).failed.isEmpty =
          false := by
        simpa [List.isEmpty_iff] using hc
      simp only [hm, if_false, hl, hce, Bool.false_eq_true,
        eq_self_iff_true, if_true]
      simp

/-- Concrete instance of C7: a toolchain whose library creation fails
aborts the run with zero results. -/
theorem coordinator_aborts_on_setup_failure_witness :
    (run execNoVlib (fun _ => false) (fun _ => (0, 0)) false
      "tests").success = false ∧
    (run execNoVlib (fun _ => false) (fun _ => (0, 0)) false
      "tests").results = [] :=
  coordinator_aborts_on_setup_failure execNoVlib (fun _ => false)
    (fun _ => (0, 0)) "tests" (Or.inl (by decide))

/-- C8: running a known test set appends exactly one outcome per
testbench of the set, in declared order — the `i`-th result is the run
of the `i`-th spec, so no failure terminates the loop early. -/
theorem run_set_one_outcome_per_spec (exec : String → ExecutionResult)
    (clock : Nat → Int × Int) (name : String) (tbs : List TestbenchSpec)
    (h : TESTBENCH_SETS.lookup name = some tbs) :
    (run_all_testbenches exec clock name).length = tbs.length ∧
    ∀ i : Nat, (run_all_testbenches exec clock name)[i]? =
      tbs[i]?.map (fun tb =>
        (run_testbench exec tb.module tb.path (some (pathStem tb.path))
          (clock i).1 (clock i).2).outcome) := by
  unfold run_all_testbenches
  rw [h]
  exact ⟨runTBList_length exec clock 0 tbs, fun i => by
    simpa using runTBList_getElem exec clock tbs 0 i⟩

/-- Concrete instance of C8: the "tests" set yields six outcomes and
its first outcome is the run of its first spec. -/
theorem run_set_one_outcome_per_spec_witness :
    (run_all_testbenches execEmptyOk (fun _ => (0, 0)) "tests").length = 6 ∧
    (run_all_testbenches execEmptyOk (fun _ => (0, 0)) "tests")[0]? =
      some (run_testbench execEmptyOk "Auth_segway_tb"
        "../tests/Auth_segway_tb.sv" (some "Auth_segway_tb") 0 0).outcome := by
  have h := run_set_one_outcome_per_spec execEmptyOk (fun _ => (0, 0))
    "tests" _ rfl
  exact ⟨h.1, by rw [h.2 0]; decide⟩

/-- A run that skips compilation issues no library-setup or
design-compilation command. -/
lemma run_skip_no_setup (exec : String → ExecutionResult)
    (fexists : String → Bool) (clock : Nat → Int × Int) (name : String) :
    (run exec fexists clock true name).setupCommands = [] := by
  unfold run
  by_cases hm : check_modelsim exec = false <;> simp [hm]

/-- C9: in "all" mode every named set is run, in declared order,
regardless of earlier failures; every set other than the first (and
every set, when skip-compile was requested) runs with compilation
skipped and issues no library-setup or design-compilation command; and
the process exit code is 0 exactly when every set's run succeeded. -/
theorem all_mode_runs_every_set (exec : String → ExecutionResult)
    (fexists : String → Bool) (clock : Nat → Int × Int) (skipArg : Bool) :
    ((run_all_mode exec fexists clock skipArg).2.map (fun p => p.1) =
      setNames) ∧
    (∀ p ∈ (run_all_mode exec fexists clock skipArg).2,
      p.2 = run exec fexists clock
        (skipArg || !(p.1 == setNames.headD "")) p.1) ∧
    (∀ p ∈ (run_all_mode exec fexists clock skipArg).2,
      p.1 ≠ setNames.headD "" → p.2.setupCommands = []) ∧
    (skipArg = true → ∀ p ∈ (run_all_mode exec fexists clock skipArg).2,
      p.2.setupCommands = []) ∧
    (run_all_mode_exit exec fexists clock skipArg = 0 ↔
      ∀ p ∈ (run_all_mode exec fexists clock skipArg).2,
        p.2.success = true) := by
  refine ⟨?_, ?_, ?_, ?_, ?_⟩
  · rfl
  · intro p hp
    simp only [run_all_mode, List.mem_map] at hp
    obtain ⟨n, _, rfl⟩ := hp
    rfl
  · intro p hp hne
    simp only [run_all_mode, List.mem_map] at hp
    obtain ⟨n, _, rfl⟩ := hp
    have hb : (skipArg || !(n == setNames.headD "")) = true := by
      have hn : (n == setNames.headD "") = false :=
        beq_eq_false_iff_ne.mpr hne
      rw [hn]
      simp
    show (run exec fexists clock (skipArg || !(n == setNames.headD ""))
      n).setupCommands = []
    rw [hb]
    exact run_skip_no_setup exec fexists clock n
  · intro hskip p hp
    simp only [run_all_mode, List.mem_map] at hp
    obtain ⟨n, _, rfl⟩ := hp
    simp [hskip, run_skip_no_setup]
  · have hfst : (run_all_mode exec fexists clock skipArg).1 =
        (run_all_mode exec fexists clock skipArg).2.all
          (fun p => p.2.success) := rfl
    unfold run_all_mode_exit
    by_cases hall : (run_all_mode exec fexists clock skipArg).1 = true
    · rw [if_pos hall]
      exact iff_of_true rfl
        (List.all_eq_true.mp (hfst.symm.trans hall))
    · rw [if_neg hall]
      exact iff_of_false (by decide)
        (fun hforall => hall (hfst.trans (List.all_eq_true.mpr hforall)))

/-- Concrete instance of C9: with a quiet all-succeeding toolchain and
skip-compile requested, all three sets appear in order and the exit
code is 0. -/
theorem all_mode_runs_every_set_witness :
    ((run_all_mode execEmptyOk (fun _ => true) (fun _ => (0, 0))
      true).2.map (fun p => p.1) = setNames) ∧
    run_all_mode_exit execEmptyOk (fun _ => true) (fun _ => (0, 0))
      true = 0 := by
  have h := all_mode_runs_every_set execEmptyOk (fun _ => true)
    (fun _ => (0, 0)) true
  exact ⟨h.1, h.2.2.2.2.mpr (by decide)⟩

/-- C10: with an available toolchain, invoking a run on a set name not
in the configuration records zero results, yet the run reports
success: the summary verdict is the non-failing INCONCLUSIVE branch,
the run returns `True` and the process exit code is 0. -/
theorem unknown_set_reports_success (exec : String → ExecutionResult)
    (fexists : String → Bool) (clock : Nat → Int × Int)
    (name : String) (skip : Bool)
    (h1 : TESTBENCH_SETS.lookup name = none)
    (h2 : check_modelsim exec = true)
    (h3 : skip = true ∨ ((create_work_library exec fexists).1 = true ∧
          (compileFiles exec fexists COMPILE_ORDER).failed = [])) :
    (run exec fexists clock skip name).results = [] ∧
    (run exec fexists clock skip name).success = true ∧
    (print_summary (run exec fexists clock skip name).results).verdict =
      .INCONCLUSIVE ∧
    run_single_exit exec fexists clock skip name = 0 := by
  have hrab : run_all_testbenches exec clock name = [] := by
    unfold run_all_testbenches
    rw [h1]
  have hm : ¬ (check_modelsim exec = false) := by simp [h2]
  have hres : (run exec fexists clock skip name).results = [] ∧
      (run exec fexists clock skip name).success = true := by
    rcases h3 with hskip | ⟨hlib, hcomp⟩
    · subst hskip
      unfold run
      simp [hm, hrab, print_summary, countStatus]
    · have hl : ¬ ((create_work_library exec fexists).1 = false) := by
        simp [hlib]
      have hce : (compileFiles exec fexists COMPILE_ORDER).failed.isEmpty =
          true := by
        simp [List.isEmpty_iff, hcomp]
      cases hsk : skip with
      | true =>
          unfold run
          simp [hm, hrab, print_summary, countStatus]
      | false =>
          unfold run
          simp [hm, hl, hce, hrab, print_summary, countStatus]
  refine ⟨hres.1, hres.2, ?_, ?_⟩
  · rw [hres.1]
    decide
  · unfold run_single_exit
    rw [if_pos hres.2]

/-- Concrete instance of C10: the unknown set name "nope" yields an
empty result list, a successful run and exit code 0. -/
theorem unknown_set_reports_success_witness :
    (run execEmptyOk (fun _ => true) (fun _ => (0, 0)) true
      "nope").results = [] ∧
    (run execEmptyOk (fun _ => true) (fun _ => (0, 0)) true
      "nope").success = true ∧
    run_single_exit execEmptyOk (fun _ => true) (fun _ => (0, 0)) true
      "nope" = 0 := by
  have h := unknown_set_reports_success execEmptyOk (fun _ => true)
    (fun _ => (0, 0)) "nope" true (by decide) (by decide) (Or.inl rfl)
  exact ⟨h.1, h.2.1, h.2.2.2⟩

end Segway
